import Mathlib

/-!
# ZigbeeButton: a shallow embedding of `src/ZigbeeButton.cpp` / `src/ZigbeeButton.H`

The endpoint object is a record of its C++ data members.  Every member function is a
function from the object (and its arguments) to the updated object together with the
list of externally visible events it produced, in program order: diagnostics, calls of
the application callback, and calls into the Zigbee stack.

Conventions of the embedding
* A function pointer is its address, a natural number; `0` is the null pointer.
* The body of the application callback lives outside this module.  A call through the
  pointer is recorded as an event; the callback is taken not to re-enter the endpoint.
* The vendor SDK and FreeRTOS headers are not part of the repository.  Their numeric
  constants are collected in `StackConstants` and every definition is parametric in them.
* `setReporting` (floating point scaling, no effect on the object) is not embedded.
-/

/-! ## Vendor constants -/

/-- Numeric constants that the source takes from the vendor SDK and FreeRTOS headers.
The embedding never looks at their values. -/
structure StackConstants where
  ESP_ZB_HA_ON_OFF_SWITCH_DEVICE_ID : Nat
  ESP_ZB_AF_HA_PROFILE_ID : Nat
  ESP_ZB_ZCL_CLUSTER_ID_ON_OFF : Nat
  ESP_ZB_ZCL_ATTR_ON_OFF_ON_OFF_ID : Nat
  ESP_ZB_ZCL_ATTR_TYPE_BOOL : Nat
  ESP_ZB_ZCL_CLUSTER_SERVER_ROLE : Nat
  portMAX_DELAY : Nat
  ESP_ZB_APS_ADDR_MODE_16_ENDP_PRESENT : Nat
  ESP_ZB_ZCL_CMD_DIRECTION_TO_CLI : Nat
  ESP_ZB_ZCL_BASIC_ZCL_VERSION_DEFAULT_VALUE : Nat
  ESP_ZB_ZCL_BASIC_POWER_SOURCE_DEFAULT_VALUE : Nat
  ESP_ZB_ZCL_IDENTIFY_IDENTIFY_TIME_DEFAULT_VALUE : Nat
  deriving DecidableEq

/-- The values published in the Zigbee Cluster Library and the vendor headers; used only
to instantiate the general theorems at a concrete input. -/
def zclConstants : StackConstants where
  ESP_ZB_HA_ON_OFF_SWITCH_DEVICE_ID := 0x0000
  ESP_ZB_AF_HA_PROFILE_ID := 0x0104
  ESP_ZB_ZCL_CLUSTER_ID_ON_OFF := 0x0006
  ESP_ZB_ZCL_ATTR_ON_OFF_ON_OFF_ID := 0x0000
  ESP_ZB_ZCL_ATTR_TYPE_BOOL := 0x10
  ESP_ZB_ZCL_CLUSTER_SERVER_ROLE := 0x01
  portMAX_DELAY := 0xffffffff
  ESP_ZB_APS_ADDR_MODE_16_ENDP_PRESENT := 0x02
  ESP_ZB_ZCL_CMD_DIRECTION_TO_CLI := 0x01
  ESP_ZB_ZCL_BASIC_ZCL_VERSION_DEFAULT_VALUE := 0x08
  ESP_ZB_ZCL_BASIC_POWER_SOURCE_DEFAULT_VALUE := 0x00
  ESP_ZB_ZCL_IDENTIFY_IDENTIFY_TIME_DEFAULT_VALUE := 0x0000

/-! ## Cluster configuration records (`ZigbeeButton.H`, lines 18-24) -/

/-- Basic cluster configuration. -/
structure esp_zb_basic_cluster_cfg_t where
  zcl_version : Nat
  power_source : Nat
  deriving DecidableEq

/-- Identify cluster configuration. -/
structure esp_zb_identify_cluster_cfg_t where
  identify_time : Nat
  deriving DecidableEq

/-- Groups cluster configuration. -/
structure esp_zb_groups_cluster_cfg_t where
  groups_name_support_id : Nat
  deriving DecidableEq

/-- Scenes cluster configuration. -/
structure esp_zb_scenes_cluster_cfg_t where
  scenes_count : Nat
  current_scene : Nat
  current_group : Nat
  scene_valid : Bool
  name_support : Nat
  deriving DecidableEq

/-- On/Off cluster configuration. -/
structure esp_zb_on_off_cluster_cfg_t where
  on_off : Bool
  deriving DecidableEq

/-- The record `zigbee_button_cfg_t` of `ZigbeeButton.H`: five sub-configurations. -/
structure zigbee_button_cfg_t where
  basic_cfg : esp_zb_basic_cluster_cfg_t
  identify_cfg : esp_zb_identify_cluster_cfg_t
  groups_cfg : esp_zb_groups_cluster_cfg_t
  scenes_cfg : esp_zb_scenes_cluster_cfg_t
  on_off_cfg : esp_zb_on_off_cluster_cfg_t
  deriving DecidableEq

/-- The vendor initialiser `ESP_ZB_DEFAULT_ON_OFF_SWITCH_CONFIG()` used by the
constructor.  It designates only `basic_cfg` and `identify_cfg`; C++ aggregate
initialisation zero-fills the members it does not name. -/
def ESP_ZB_DEFAULT_ON_OFF_SWITCH_CONFIG (K : StackConstants) : zigbee_button_cfg_t where
  basic_cfg :=
    { zcl_version := K.ESP_ZB_ZCL_BASIC_ZCL_VERSION_DEFAULT_VALUE
      power_source := K.ESP_ZB_ZCL_BASIC_POWER_SOURCE_DEFAULT_VALUE }
  identify_cfg := { identify_time := K.ESP_ZB_ZCL_IDENTIFY_IDENTIFY_TIME_DEFAULT_VALUE }
  groups_cfg := { groups_name_support_id := 0 }
  scenes_cfg :=
    { scenes_count := 0, current_scene := 0, current_group := 0, scene_valid := false,
      name_support := 0 }
  on_off_cfg := { on_off := false }

/-! ## Cluster lists -/

/-- The clusters named by the doc comment of `zigbee_button_clusters_create`; each has a
dedicated `esp_zb_cluster_list_add_*_cluster` entry point in the vendor SDK. -/
inductive ClusterKind where
  | basic
  | identify
  | groups
  | scenes
  | on_off
  deriving DecidableEq

/-- An attribute list as returned by one of the vendor factories: the factory that made it
together with the configuration record it was made from. -/
inductive esp_zb_attribute_list_t where
  | basic (cfg : esp_zb_basic_cluster_cfg_t)
  | identify (cfg : esp_zb_identify_cluster_cfg_t)
  | groups (cfg : esp_zb_groups_cluster_cfg_t)
  | scenes (cfg : esp_zb_scenes_cluster_cfg_t)
  | on_off (cfg : esp_zb_on_off_cluster_cfg_t)
  deriving DecidableEq

/-- One cluster of a cluster list: which cluster it is, its attributes and its role. -/
structure ClusterEntry where
  cluster : ClusterKind
  attr_list : esp_zb_attribute_list_t
  role_mask : Nat
  deriving DecidableEq

/-- A cluster list is the sequence of clusters added to it, in order of addition. -/
abbrev esp_zb_cluster_list_t := List ClusterEntry

/-- Vendor factory `esp_zb_basic_cluster_create`. -/
def esp_zb_basic_cluster_create (cfg : esp_zb_basic_cluster_cfg_t) :
    esp_zb_attribute_list_t :=
  esp_zb_attribute_list_t.basic cfg

/-- Vendor factory `esp_zb_identify_cluster_create`. -/
def esp_zb_identify_cluster_create (cfg : esp_zb_identify_cluster_cfg_t) :
    esp_zb_attribute_list_t :=
  esp_zb_attribute_list_t.identify cfg

/-- Vendor factory `esp_zb_on_off_cluster_create`. -/
def esp_zb_on_off_cluster_create (cfg : esp_zb_on_off_cluster_cfg_t) :
    esp_zb_attribute_list_t :=
  esp_zb_attribute_list_t.on_off cfg

/-- Vendor call `esp_zb_zcl_cluster_list_create`: a new, empty cluster list. -/
def esp_zb_zcl_cluster_list_create : esp_zb_cluster_list_t := []

/-- Vendor call `esp_zb_cluster_list_add_basic_cluster`. -/
def esp_zb_cluster_list_add_basic_cluster (l : esp_zb_cluster_list_t)
    (a : esp_zb_attribute_list_t) (role_mask : Nat) : esp_zb_cluster_list_t :=
  l ++ [{ cluster := ClusterKind.basic, attr_list := a, role_mask := role_mask }]

/-- Vendor call `esp_zb_cluster_list_add_identify_cluster`. -/
def esp_zb_cluster_list_add_identify_cluster (l : esp_zb_cluster_list_t)
    (a : esp_zb_attribute_list_t) (role_mask : Nat) : esp_zb_cluster_list_t :=
  l ++ [{ cluster := ClusterKind.identify, attr_list := a, role_mask := role_mask }]

/-- Vendor call `esp_zb_cluster_list_add_on_off_cluster`. -/
def esp_zb_cluster_list_add_on_off_cluster (l : esp_zb_cluster_list_t)
    (a : esp_zb_attribute_list_t) (role_mask : Nat) : esp_zb_cluster_list_t :=
  l ++ [{ cluster := ClusterKind.on_off, attr_list := a, role_mask := role_mask }]

/-- Embedding of `ZigbeeButton::zigbee_button_clusters_create` (`ZigbeeButton.cpp`, lines 100-112):
three attribute lists are created and three clusters are added. -/
def zigbee_button_clusters_create (K : StackConstants) (button_cfg : zigbee_button_cfg_t) :
    esp_zb_cluster_list_t :=
  let esp_zb_basic_cluster := esp_zb_basic_cluster_create button_cfg.basic_cfg
  let esp_zb_identify_cluster := esp_zb_identify_cluster_create button_cfg.identify_cfg
  let esp_zb_on_off_cluster := esp_zb_on_off_cluster_create button_cfg.on_off_cfg
  let esp_zb_cluster_list := esp_zb_zcl_cluster_list_create
  let esp_zb_cluster_list := esp_zb_cluster_list_add_basic_cluster esp_zb_cluster_list
    esp_zb_basic_cluster K.ESP_ZB_ZCL_CLUSTER_SERVER_ROLE
  let esp_zb_cluster_list := esp_zb_cluster_list_add_identify_cluster esp_zb_cluster_list
    esp_zb_identify_cluster K.ESP_ZB_ZCL_CLUSTER_SERVER_ROLE
  let esp_zb_cluster_list := esp_zb_cluster_list_add_on_off_cluster esp_zb_cluster_list
    esp_zb_on_off_cluster K.ESP_ZB_ZCL_CLUSTER_SERVER_ROLE
  esp_zb_cluster_list

/-- The cluster list holds cluster `c`, added with role `role`. -/
def hasCluster (l : esp_zb_cluster_list_t) (c : ClusterKind) (role : Nat) : Bool :=
  l.any fun e => decide (e.cluster = c) && decide (e.role_mask = role)

/-! ## Events -/

/-- The diagnostics of the source, one constructor per `log_v` / `log_w` call site, with
the value printed by its format string. -/
inductive LogLine where
  | zbAttributeSet
  | attribute_ignored (attribute_id : Nat)
  | cluster_ignored (cluster : Nat)
  | updating_state (state : Bool)
  | report_sent
  deriving DecidableEq

/-- The fields of `esp_zb_zcl_report_attr_cmd_t` that `reportButton` assigns. -/
structure esp_zb_zcl_report_attr_cmd_t where
  address_mode : Nat
  attributeID : Nat
  direction : Nat
  clusterID : Nat
  dst_addr_short : Nat
  dst_endpoint : Nat
  src_endpoint : Nat
  deriving DecidableEq

/-- Externally visible actions of the member functions. -/
inductive Event where
  | log_v (line : LogLine)
  | log_w (line : LogLine)
  | callback (fn : Nat) (arg : Bool)
  | esp_zb_lock_acquire (block_ticks : Nat)
  | esp_zb_zcl_set_attribute_val (endpoint cluster_id cluster_role attr_id : Nat)
      (value : Bool) (check : Bool)
  | esp_zb_lock_release
  | esp_zb_zcl_report_attr_cmd_req (cmd : esp_zb_zcl_report_attr_cmd_t)
  deriving DecidableEq

/-- The callback invocations of a trace, in order: function address and argument. -/
def notifications (t : List Event) : List (Nat × Bool) :=
  t.filterMap fun
    | Event.callback fn arg => some (fn, arg)
    | _ => none

/-- The calls into the Zigbee stack of a trace, in order. -/
def stackCalls (t : List Event) : List Event :=
  t.filter fun
    | Event.esp_zb_lock_acquire _ => true
    | Event.esp_zb_zcl_set_attribute_val _ _ _ _ _ _ => true
    | Event.esp_zb_lock_release => true
    | Event.esp_zb_zcl_report_attr_cmd_req _ => true
    | _ => false

/-- The attribute-store writes of a trace, in order. -/
def attrWrites (t : List Event) : List Event :=
  t.filter fun
    | Event.esp_zb_zcl_set_attribute_val _ _ _ _ _ _ => true
    | _ => false

/-- The report commands submitted by a trace, in order. -/
def reportCommands (t : List Event) : List Event :=
  t.filter fun
    | Event.esp_zb_zcl_report_attr_cmd_req _ => true
    | _ => false

/-! ## Incoming attribute messages -/

/-- The vendor record `esp_zb_zcl_attribute_data_t`.  `value` is what the source reads through
`*(bool *)message->attribute.data.value`. -/
structure esp_zb_zcl_attribute_data_t where
  type : Nat
  size : Nat
  value : Bool
  deriving DecidableEq

/-- The vendor record `esp_zb_zcl_attribute_t`. -/
structure esp_zb_zcl_attribute_t where
  id : Nat
  data : esp_zb_zcl_attribute_data_t
  deriving DecidableEq

/-- The vendor record `esp_zb_device_cb_common_info_t`. -/
structure esp_zb_device_cb_common_info_t where
  status : Nat
  dst_endpoint : Nat
  cluster : Nat
  deriving DecidableEq

/-- The vendor record `esp_zb_zcl_set_attr_value_message_t`; its member `attribute` is
spelled `attr` here, the full word being reserved. -/
structure esp_zb_zcl_set_attr_value_message_t where
  info : esp_zb_device_cb_common_info_t
  attr : esp_zb_zcl_attribute_t
  deriving DecidableEq

/-! ## The endpoint object -/

/-- The vendor record `esp_zb_endpoint_config_t`. -/
structure esp_zb_endpoint_config_t where
  endpoint : Nat
  app_profile_id : Nat
  app_device_id : Nat
  app_device_version : Nat
  deriving DecidableEq

/-- The data members of a `ZigbeeButton`: those inherited from `ZigbeeEP` that the source
assigns, the callback pointer and the cached state. -/
structure ZigbeeButton where
  _endpoint : Nat
  _device_id : Nat
  _cluster_list : esp_zb_cluster_list_t
  _ep_config : esp_zb_endpoint_config_t
  _on_button_change : Nat
  _current_state : Bool
  deriving DecidableEq

/-- Embedding of the constructor `ZigbeeButton::ZigbeeButton(uint8_t endpoint)`
(`ZigbeeButton.cpp`, lines 6-16).  The base constructor `ZigbeeEP(endpoint)` stores the
endpoint number.  The constructor has no initialiser for `_on_button_change`, so that
member keeps what the storage of the object held before; `storage` is that content. -/
def ZigbeeButton.ctor (K : StackConstants) (endpoint : Nat) (storage : Nat) : ZigbeeButton :=
  let button_cfg := ESP_ZB_DEFAULT_ON_OFF_SWITCH_CONFIG K
  { _endpoint := endpoint % 256
    _device_id := K.ESP_ZB_HA_ON_OFF_SWITCH_DEVICE_ID
    _cluster_list := zigbee_button_clusters_create K button_cfg
    _ep_config :=
      { endpoint := endpoint % 256
        app_profile_id := K.ESP_ZB_AF_HA_PROFILE_ID
        app_device_id := K.ESP_ZB_HA_ON_OFF_SWITCH_DEVICE_ID
        app_device_version := 0 }
    _on_button_change := storage
    _current_state := false }

/-- Embedding of `onButtonChange` (`ZigbeeButton.H`, lines 55-57). -/
def ZigbeeButton.onButtonChange (b : ZigbeeButton) (callback : Nat) : ZigbeeButton :=
  { b with _on_button_change := callback }

/-- Embedding of `getButtonState` (`ZigbeeButton.H`, lines 68-70). -/
def ZigbeeButton.getButtonState (b : ZigbeeButton) : Bool :=
  b._current_state

/-- Embedding of `buttonChanged` (`ZigbeeButton.cpp`, lines 37-41). -/
def ZigbeeButton.buttonChanged (b : ZigbeeButton) : ZigbeeButton × List Event :=
  if b._on_button_change ≠ 0 then
    (b, [Event.callback b._on_button_change b._current_state])
  else
    (b, [])

/-- Embedding of `restoreButton` (`ZigbeeButton.H`, lines 58-60). -/
def ZigbeeButton.restoreButton (b : ZigbeeButton) : ZigbeeButton × List Event :=
  b.buttonChanged

/-- Embedding of `setButtonState` (`ZigbeeButton.cpp`, lines 43-54).  The value handed to
the attribute store is read from `_current_state`, as in the source. -/
def ZigbeeButton.setButtonState (K : StackConstants) (b : ZigbeeButton) (state : Bool) :
    ZigbeeButton × List Event :=
  let b1 := { b with _current_state := state }
  let r := b1.buttonChanged
  let b2 := r.1
  (b2, r.2 ++
    [ Event.log_v (LogLine.updating_state state),
      Event.esp_zb_lock_acquire K.portMAX_DELAY,
      Event.esp_zb_zcl_set_attribute_val b2._endpoint K.ESP_ZB_ZCL_CLUSTER_ID_ON_OFF
        K.ESP_ZB_ZCL_CLUSTER_SERVER_ROLE K.ESP_ZB_ZCL_ATTR_ON_OFF_ON_OFF_ID
        b2._current_state false,
      Event.esp_zb_lock_release ])

/-- Embedding of `toggleButton` (`ZigbeeButton.cpp`, lines 56-59). -/
def ZigbeeButton.toggleButton (K : StackConstants) (b : ZigbeeButton) :
    ZigbeeButton × List Event :=
  let b1 := { b with _current_state := !b._current_state }
  ZigbeeButton.setButtonState K b1 b1._current_state

/-- Embedding of `zbAttributeSet` (`ZigbeeButton.cpp`, lines 19-35). -/
def ZigbeeButton.zbAttributeSet (K : StackConstants) (b : ZigbeeButton)
    (message : esp_zb_zcl_set_attr_value_message_t) : ZigbeeButton × List Event :=
  let t0 := [Event.log_v LogLine.zbAttributeSet]
  if message.info.cluster = K.ESP_ZB_ZCL_CLUSTER_ID_ON_OFF then
    if message.attr.id = K.ESP_ZB_ZCL_ATTR_ON_OFF_ON_OFF_ID
        ∧ message.attr.data.type = K.ESP_ZB_ZCL_ATTR_TYPE_BOOL then
      if b._current_state ≠ message.attr.data.value then
        let b1 := { b with _current_state := message.attr.data.value }
        let r := b1.buttonChanged
        (r.1, t0 ++ r.2)
      else
        (b, t0)
    else
      (b, t0 ++ [Event.log_w (LogLine.attribute_ignored message.attr.id)])
  else
    (b, t0 ++ [Event.log_w (LogLine.cluster_ignored message.info.cluster)])

/-- Embedding of `reportButton` (`ZigbeeButton.cpp`, lines 61-77). -/
def ZigbeeButton.reportButton (K : StackConstants) (b : ZigbeeButton) :
    ZigbeeButton × List Event :=
  let report_attr_cmd : esp_zb_zcl_report_attr_cmd_t :=
    { address_mode := K.ESP_ZB_APS_ADDR_MODE_16_ENDP_PRESENT
      attributeID := K.ESP_ZB_ZCL_ATTR_ON_OFF_ON_OFF_ID
      direction := K.ESP_ZB_ZCL_CMD_DIRECTION_TO_CLI
      clusterID := K.ESP_ZB_ZCL_CLUSTER_ID_ON_OFF
      dst_addr_short := 0
      dst_endpoint := 1
      src_endpoint := b._endpoint }
  (b,
    [ Event.esp_zb_lock_acquire K.portMAX_DELAY,
      Event.esp_zb_zcl_report_attr_cmd_req report_attr_cmd,
      Event.esp_zb_lock_release,
      Event.log_v LogLine.report_sent ])

/-! ## Sequences of calls -/

/-- The calls `setButtonState v₁; …; setButtonState vₙ` made in order on `b`; the result is
the object after the last call. -/
def ZigbeeButton.setButtonStates (K : StackConstants) (b : ZigbeeButton) :
    List Bool → ZigbeeButton
  | [] => b
  | v :: vs => ZigbeeButton.setButtonStates K (b.setButtonState K v).1 vs

/-! ## The endpoint together with the stack's attribute store -/

/-- Modelled from the spec: the attribute store of the external stack ("set a named
attribute's value for a given endpoint/cluster").  Only the cell that holds the On/Off
attribute of the On/Off server cluster of endpoint `endpoint` is tracked; a set-attribute
call addressed to that cell replaces its content, every other event leaves it alone. -/
def storeAfterEvent (K : StackConstants) (endpoint : Nat) (stored : Option Bool) :
    Event → Option Bool
  | Event.esp_zb_zcl_set_attribute_val ep cluster_id cluster_role attr_id value _ =>
      if ep = endpoint ∧ cluster_id = K.ESP_ZB_ZCL_CLUSTER_ID_ON_OFF
          ∧ cluster_role = K.ESP_ZB_ZCL_CLUSTER_SERVER_ROLE
          ∧ attr_id = K.ESP_ZB_ZCL_ATTR_ON_OFF_ON_OFF_ID then
        some value
      else
        stored
  | _ => stored

/-- The tracked store cell after all events of a trace, applied in order. -/
def storeAfter (K : StackConstants) (endpoint : Nat) (stored : Option Bool)
    (t : List Event) : Option Bool :=
  t.foldl (storeAfterEvent K endpoint) stored

/-- Modelled from the spec: the value the On/Off attribute has when the endpoint is
registered, namely the `on_off` field of the configuration its On/Off server cluster was
created from; `none` when the cluster list has no such cluster. -/
def initialOnOff (K : StackConstants) (l : esp_zb_cluster_list_t) : Option Bool :=
  l.findSome? fun e =>
    match e.cluster, e.attr_list with
    | ClusterKind.on_off, esp_zb_attribute_list_t.on_off cfg =>
        if e.role_mask = K.ESP_ZB_ZCL_CLUSTER_SERVER_ROLE then some cfg.on_off else none
    | _, _ => none

/-- Modelled from the spec: an inbound write is applied to the store by the stack before
the hook fires.  The tracked cell changes when the message is a boolean write of the
On/Off attribute of the On/Off cluster; the attribute is boolean in the store, so a write
of another declared type does not reach the cell. -/
def stackRemoteWrite (K : StackConstants) (stored : Option Bool)
    (message : esp_zb_zcl_set_attr_value_message_t) : Option Bool :=
  if message.info.cluster = K.ESP_ZB_ZCL_CLUSTER_ID_ON_OFF
      ∧ message.attr.id = K.ESP_ZB_ZCL_ATTR_ON_OFF_ON_OFF_ID
      ∧ message.attr.data.type = K.ESP_ZB_ZCL_ATTR_TYPE_BOOL then
    some message.attr.data.value
  else
    stored

/-- An endpoint and the store cell of its On/Off attribute. -/
structure System where
  button : ZigbeeButton
  on_off_attr : Option Bool
  deriving DecidableEq

/-- The operations that act on a constructed endpoint: the public member functions and the
delivery of an inbound attribute message by the stack. -/
inductive Op where
  | setButtonState (state : Bool)
  | toggleButton
  | restoreButton
  | onButtonChange (callback : Nat)
  | reportButton
  | remoteUpdate (message : esp_zb_zcl_set_attr_value_message_t)
  deriving DecidableEq

/-- The system right after construction of endpoint number `endpoint`. -/
def System.init (K : StackConstants) (endpoint : Nat) (storage : Nat) : System :=
  let b := ZigbeeButton.ctor K endpoint storage
  { button := b, on_off_attr := initialOnOff K b._cluster_list }

/-- A member function ran to completion: the store absorbs the calls of its trace. -/
def System.absorb (K : StackConstants) (s : System) (r : ZigbeeButton × List Event) :
    System :=
  { button := r.1, on_off_attr := storeAfter K s.button._endpoint s.on_off_attr r.2 }

/-- Modelled from the spec: the dispatch of the endpoint base class ("invokes this
component's attribute-set handler whenever an inbound ZCL write targets this endpoint").
A message addressed to this endpoint is first applied to the store by the stack and then
handed to `zbAttributeSet`; a message addressed elsewhere does not reach this endpoint. -/
def System.dispatch (K : StackConstants) (s : System)
    (message : esp_zb_zcl_set_attr_value_message_t) : System :=
  if message.info.dst_endpoint = s.button._endpoint then
    System.absorb K { s with on_off_attr := stackRemoteWrite K s.on_off_attr message }
      (s.button.zbAttributeSet K message)
  else
    s

/-- One completed operation. -/
def System.step (K : StackConstants) (s : System) : Op → System
  | Op.setButtonState state => s.absorb K (s.button.setButtonState K state)
  | Op.toggleButton => s.absorb K (s.button.toggleButton K)
  | Op.restoreButton => s.absorb K s.button.restoreButton
  | Op.onButtonChange callback => { s with button := s.button.onButtonChange callback }
  | Op.reportButton => s.absorb K (s.button.reportButton K)
  | Op.remoteUpdate message => s.dispatch K message

/-- The system after a sequence of completed operations. -/
def System.run (K : StackConstants) (s : System) (ops : List Op) : System :=
  ops.foldl (System.step K) s

/-- The cached state equals the content of the store cell. -/
def System.Mirror (s : System) : Prop :=
  s.on_off_attr = some s.button._current_state

/-! ## Concrete inputs -/

/-- Endpoint number 10 constructed in zero-filled storage, with the observer at address
`0x400d1234` registered. -/
def button10 : ZigbeeButton :=
  (ZigbeeButton.ctor zclConstants 10 0).onButtonChange 0x400d1234

/-- A well-formed remote write of the On/Off attribute carrying `value`. -/
def onOffMessage (K : StackConstants) (endpoint : Nat) (value : Bool) :
    esp_zb_zcl_set_attr_value_message_t :=
  { info := { status := 0, dst_endpoint := endpoint, cluster := K.ESP_ZB_ZCL_CLUSTER_ID_ON_OFF }
    attr :=
      { id := K.ESP_ZB_ZCL_ATTR_ON_OFF_ON_OFF_ID
        data := { type := K.ESP_ZB_ZCL_ATTR_TYPE_BOOL, size := 1, value := value } } }

/-- A message for the Level Control cluster (id 8): foreign to this endpoint type. -/
def levelMessage : esp_zb_zcl_set_attr_value_message_t :=
  { info := { status := 0, dst_endpoint := 10, cluster := 0x0008 }
    attr := { id := 0x0000, data := { type := 0x20, size := 1, value := true } } }

/-! ## Basic facts about the member functions -/

theorem buttonChanged_fst (b : ZigbeeButton) : b.buttonChanged.1 = b := by
  unfold ZigbeeButton.buttonChanged
  split <;> rfl

theorem buttonChanged_snd_set (b : ZigbeeButton) (h : b._on_button_change ≠ 0) :
    b.buttonChanged.2 = [Event.callback b._on_button_change b._current_state] := by
  unfold ZigbeeButton.buttonChanged
  rw [if_pos h]

theorem buttonChanged_snd_unset (b : ZigbeeButton) (h : b._on_button_change = 0) :
    b.buttonChanged.2 = [] := by
  unfold ZigbeeButton.buttonChanged
  simp [h]

theorem buttonChanged_snd (b : ZigbeeButton) :
    b.buttonChanged.2 =
      if b._on_button_change ≠ 0 then
        [Event.callback b._on_button_change b._current_state]
      else [] := by
  unfold ZigbeeButton.buttonChanged
  split <;> rfl

theorem setButtonState_fst (K : StackConstants) (b : ZigbeeButton) (v : Bool) :
    (b.setButtonState K v).1 = { b with _current_state := v } := by
  unfold ZigbeeButton.setButtonState
  simp only [buttonChanged_fst]

theorem setButtonState_snd (K : StackConstants) (b : ZigbeeButton) (v : Bool) :
    (b.setButtonState K v).2 =
      (if b._on_button_change ≠ 0 then [Event.callback b._on_button_change v] else []) ++
        [ Event.log_v (LogLine.updating_state v),
          Event.esp_zb_lock_acquire K.portMAX_DELAY,
          Event.esp_zb_zcl_set_attribute_val b._endpoint K.ESP_ZB_ZCL_CLUSTER_ID_ON_OFF
            K.ESP_ZB_ZCL_CLUSTER_SERVER_ROLE K.ESP_ZB_ZCL_ATTR_ON_OFF_ON_OFF_ID v false,
          Event.esp_zb_lock_release ] := by
  unfold ZigbeeButton.setButtonState
  simp only [buttonChanged_fst, buttonChanged_snd]

theorem toggleButton_eq (K : StackConstants) (b : ZigbeeButton) :
    b.toggleButton K = b.setButtonState K (!b._current_state) := by
  unfold ZigbeeButton.toggleButton
  apply Prod.ext
  · simp only [setButtonState_fst]
  · simp only [setButtonState_snd]

theorem zbAttributeSet_accept (K : StackConstants) (b : ZigbeeButton)
    (m : esp_zb_zcl_set_attr_value_message_t)
    (hc : m.info.cluster = K.ESP_ZB_ZCL_CLUSTER_ID_ON_OFF)
    (ha : m.attr.id = K.ESP_ZB_ZCL_ATTR_ON_OFF_ON_OFF_ID)
    (ht : m.attr.data.type = K.ESP_ZB_ZCL_ATTR_TYPE_BOOL) :
    b.zbAttributeSet K m =
      if b._current_state ≠ m.attr.data.value then
        ({ b with _current_state := m.attr.data.value },
          Event.log_v LogLine.zbAttributeSet ::
            (if b._on_button_change ≠ 0 then
              [Event.callback b._on_button_change m.attr.data.value] else []))
      else (b, [Event.log_v LogLine.zbAttributeSet]) := by
  unfold ZigbeeButton.zbAttributeSet
  rw [if_pos hc, if_pos ⟨ha, ht⟩]
  split
  · apply Prod.ext
    · simp only [buttonChanged_fst]
    · simp only [buttonChanged_snd, List.singleton_append]
  · rfl

theorem zbAttributeSet_reject (K : StackConstants) (b : ZigbeeButton)
    (m : esp_zb_zcl_set_attr_value_message_t)
    (h : m.info.cluster ≠ K.ESP_ZB_ZCL_CLUSTER_ID_ON_OFF
      ∨ m.attr.id ≠ K.ESP_ZB_ZCL_ATTR_ON_OFF_ON_OFF_ID
      ∨ m.attr.data.type ≠ K.ESP_ZB_ZCL_ATTR_TYPE_BOOL) :
    b.zbAttributeSet K m =
      (b, [Event.log_v LogLine.zbAttributeSet,
        Event.log_w (if m.info.cluster = K.ESP_ZB_ZCL_CLUSTER_ID_ON_OFF then
          LogLine.attribute_ignored m.attr.id else LogLine.cluster_ignored m.info.cluster)]) := by
  unfold ZigbeeButton.zbAttributeSet
  by_cases hc : m.info.cluster = K.ESP_ZB_ZCL_CLUSTER_ID_ON_OFF
  · have h2 : ¬ (m.attr.id = K.ESP_ZB_ZCL_ATTR_ON_OFF_ON_OFF_ID
        ∧ m.attr.data.type = K.ESP_ZB_ZCL_ATTR_TYPE_BOOL) := by
      rintro ⟨h1, h3⟩
      rcases h with h | h | h
      · exact h hc
      · exact h h1
      · exact h h3
    rw [if_pos hc, if_neg h2, if_pos hc]
    rfl
  · rw [if_neg hc, if_neg hc]
    rfl

/-! ## Local state changes -/

/-- C1: after the calls `setButtonState v₁; …; setButtonState vₖ₊₁` (the first `k + 1`
values of any list `vs`, whatever the object was before, observer registered or not)
`getButtonState` returns the value set last, `vs[k]`. -/
theorem getButtonState_after_setButtonStates (K : StackConstants) (b : ZigbeeButton)
    (vs : List Bool) (k : Nat) (hk : k < vs.length) :
    (ZigbeeButton.setButtonStates K b (vs.take (k + 1))).getButtonState = vs.get ⟨k, hk⟩ := by
  induction vs generalizing b k with
  | nil => exact absurd hk (Nat.not_lt_zero k)
  | cons v vs ih =>
    cases k with
    | zero =>
      simp only [List.take_succ_cons, List.take_zero, ZigbeeButton.setButtonStates,
        ZigbeeButton.getButtonState, setButtonState_fst, List.get_eq_getElem,
        List.getElem_cons_zero]
    | succ k =>
      have hk2 : k < vs.length := Nat.lt_of_succ_lt_succ hk
      have h := ih (b.setButtonState K v).1 k hk2
      simpa only [List.take_succ_cons, ZigbeeButton.setButtonStates, List.get_eq_getElem,
        List.getElem_cons_succ] using h

/-- Instance of C1: on endpoint 10, after `setButtonState` of true, false, false, true the
state read after the third call is the third value. -/
theorem getButtonState_after_setButtonStates_witness :
    2 < [true, false, false, true].length ∧
      (ZigbeeButton.setButtonStates zclConstants button10
        ([true, false, false, true].take (2 + 1))).getButtonState = false :=
  ⟨by decide,
    getButtonState_after_setButtonStates zclConstants button10 [true, false, false, true] 2
      (by decide)⟩

/-- C2: with an observer registered (non-null callback pointer), one call of
`setButtonState v` calls the observer exactly once, with `v`, whatever the state before;
in particular when `v` is the state the object already has. -/
theorem setButtonState_notifies_once (K : StackConstants) (b : ZigbeeButton) (v : Bool)
    (h : b._on_button_change ≠ 0) :
    notifications (b.setButtonState K v).2 = [(b._on_button_change, v)]
      ∧ notifications (b.setButtonState K b.getButtonState).2
          = [(b._on_button_change, b.getButtonState)] := by
  constructor <;> simp [setButtonState_snd, h, notifications]

/-- Instance of C2: endpoint 10 is in state false and is set to false again; the observer
is still called once, with false. -/
theorem setButtonState_notifies_once_witness :
    button10._on_button_change ≠ 0 ∧
      notifications (button10.setButtonState zclConstants false).2 = [(0x400d1234, false)] :=
  ⟨by decide, (setButtonState_notifies_once zclConstants button10 false (by decide)).1⟩

/-- C3: `toggleButton` in state `s` is `setButtonState (!s)`: same resulting object and same
trace; afterwards the state is `!s`, a registered observer has been called exactly once
with `!s` (an unset one not at all), and exactly one attribute write, of `!s`, was made. -/
theorem toggleButton_is_setButtonState_not (K : StackConstants) (b : ZigbeeButton) :
    b.toggleButton K = b.setButtonState K (!b.getButtonState)
      ∧ (b.toggleButton K).1.getButtonState = !b.getButtonState
      ∧ notifications (b.toggleButton K).2 =
          (if b._on_button_change ≠ 0 then [(b._on_button_change, !b.getButtonState)] else [])
      ∧ attrWrites (b.toggleButton K).2 =
          [Event.esp_zb_zcl_set_attribute_val b._endpoint K.ESP_ZB_ZCL_CLUSTER_ID_ON_OFF
            K.ESP_ZB_ZCL_CLUSTER_SERVER_ROLE K.ESP_ZB_ZCL_ATTR_ON_OFF_ON_OFF_ID
            (!b.getButtonState) false] := by
  refine ⟨toggleButton_eq K b, ?_, ?_, ?_⟩
  · rw [toggleButton_eq, setButtonState_fst]
    rfl
  · rw [toggleButton_eq, setButtonState_snd]
    by_cases h : b._on_button_change = 0 <;>
      simp [h, notifications, ZigbeeButton.getButtonState]
  · rw [toggleButton_eq, setButtonState_snd]
    by_cases h : b._on_button_change = 0 <;>
      simp [h, attrWrites, ZigbeeButton.getButtonState]

/-- C4: with an observer registered, `restoreButton` in state `s` produces exactly one
event, the call of the observer with `s`; the object (so the state) is unchanged, and the
trace has no attribute write and no other stack call. -/
theorem restoreButton_only_notifies (b : ZigbeeButton) (h : b._on_button_change ≠ 0) :
    b.restoreButton.2 = [Event.callback b._on_button_change b.getButtonState]
      ∧ notifications b.restoreButton.2 = [(b._on_button_change, b.getButtonState)]
      ∧ b.restoreButton.1 = b
      ∧ b.restoreButton.1.getButtonState = b.getButtonState
      ∧ attrWrites b.restoreButton.2 = []
      ∧ stackCalls b.restoreButton.2 = [] := by
  have h1 : b.restoreButton.1 = b := buttonChanged_fst b
  have h2 : b.restoreButton.2 = [Event.callback b._on_button_change b.getButtonState] :=
    buttonChanged_snd_set b h
  refine ⟨h2, ?_, h1, ?_, ?_, ?_⟩
  · rw [h2]; rfl
  · rw [h1]
  · rw [h2]; rfl
  · rw [h2]; rfl

/-- Instance of C4: endpoint 10 after `setButtonState true`. -/
theorem restoreButton_only_notifies_witness :
    (button10.setButtonState zclConstants true).1._on_button_change ≠ 0 ∧
      (button10.setButtonState zclConstants true).1.restoreButton.2
        = [Event.callback 0x400d1234 true] :=
  ⟨by decide,
    (restoreButton_only_notifies (button10.setButtonState zclConstants true).1
      (by decide)).1⟩

/-! ## Remote updates -/

/-- C5: for a message with On/Off cluster, On/Off attribute id and boolean type, carrying
`w`, received in state `s`: if `w ≠ s` the state becomes `w` and the observer is called
exactly once, with `w` (a registered observer; an unset one is not called); if `w = s`
the object is unchanged and nothing is notified.  Delivering the message a second time
notifies nothing, so two deliveries notify at most once.  No delivery writes to the
attribute store or makes any other stack call. -/
theorem zbAttributeSet_valid_message (K : StackConstants) (b : ZigbeeButton)
    (m : esp_zb_zcl_set_attr_value_message_t)
    (hc : m.info.cluster = K.ESP_ZB_ZCL_CLUSTER_ID_ON_OFF)
    (ha : m.attr.id = K.ESP_ZB_ZCL_ATTR_ON_OFF_ON_OFF_ID)
    (ht : m.attr.data.type = K.ESP_ZB_ZCL_ATTR_TYPE_BOOL) :
    (m.attr.data.value ≠ b.getButtonState →
        (b.zbAttributeSet K m).1.getButtonState = m.attr.data.value
        ∧ notifications (b.zbAttributeSet K m).2 =
            (if b._on_button_change ≠ 0 then [(b._on_button_change, m.attr.data.value)]
              else []))
      ∧ (m.attr.data.value = b.getButtonState →
        (b.zbAttributeSet K m).1 = b ∧ notifications (b.zbAttributeSet K m).2 = [])
      ∧ notifications ((b.zbAttributeSet K m).1.zbAttributeSet K m).2 = []
      ∧ (notifications
          ((b.zbAttributeSet K m).2 ++ ((b.zbAttributeSet K m).1.zbAttributeSet K m).2)).length
          ≤ 1
      ∧ attrWrites (b.zbAttributeSet K m).2 = []
      ∧ stackCalls (b.zbAttributeSet K m).2 = [] := by
  have hsecond : ∀ b2 : ZigbeeButton, b2._current_state = m.attr.data.value →
      notifications (b2.zbAttributeSet K m).2 = [] := by
    intro b2 h2
    rw [zbAttributeSet_accept K b2 m hc ha ht]
    simp [h2, notifications]
  have hstate : (b.zbAttributeSet K m).1._current_state = m.attr.data.value := by
    rw [zbAttributeSet_accept K b m hc ha ht]
    by_cases hw : b._current_state = m.attr.data.value <;> simp [hw]
  have hlen : (notifications (b.zbAttributeSet K m).2).length ≤ 1 := by
    rw [zbAttributeSet_accept K b m hc ha ht]
    by_cases hw : b._current_state = m.attr.data.value <;>
      by_cases hcb : b._on_button_change = 0 <;> simp [hw, hcb, notifications]
  refine ⟨?_, ?_, hsecond _ hstate, ?_, ?_, ?_⟩
  · intro hw
    have hw2 : b._current_state ≠ m.attr.data.value := fun e => hw e.symm
    rw [zbAttributeSet_accept K b m hc ha ht]
    by_cases hcb : b._on_button_change = 0 <;>
      simp [hw2, hcb, notifications, ZigbeeButton.getButtonState]
  · intro hw
    have hw2 : b._current_state = m.attr.data.value := hw.symm
    rw [zbAttributeSet_accept K b m hc ha ht]
    simp [hw2, notifications]
  · have happ : notifications
          ((b.zbAttributeSet K m).2 ++ ((b.zbAttributeSet K m).1.zbAttributeSet K m).2)
        = notifications (b.zbAttributeSet K m).2 := by
      unfold notifications
      rw [List.filterMap_append]
      have h0 := hsecond _ hstate
      unfold notifications at h0
      rw [h0, List.append_nil]
    rw [happ]
    exact hlen
  · rw [zbAttributeSet_accept K b m hc ha ht]
    by_cases hw : b._current_state = m.attr.data.value <;>
      by_cases hcb : b._on_button_change = 0 <;> simp [hw, hcb, attrWrites]
  · rw [zbAttributeSet_accept K b m hc ha ht]
    by_cases hw : b._current_state = m.attr.data.value <;>
      by_cases hcb : b._on_button_change = 0 <;> simp [hw, hcb, stackCalls]

/-- Instance of C5: endpoint 10 in state false receives the On/Off write of true: the
state becomes true and the observer is called once with true; the same message again
notifies nothing. -/
theorem zbAttributeSet_valid_message_witness :
    (button10.zbAttributeSet zclConstants (onOffMessage zclConstants 10 true)).1.getButtonState
        = true
      ∧ notifications
          (button10.zbAttributeSet zclConstants (onOffMessage zclConstants 10 true)).2
        = [(0x400d1234, true)]
      ∧ notifications
          ((button10.zbAttributeSet zclConstants
            (onOffMessage zclConstants 10 true)).1.zbAttributeSet zclConstants
              (onOffMessage zclConstants 10 true)).2 = [] :=
  have h := zbAttributeSet_valid_message zclConstants button10
    (onOffMessage zclConstants 10 true) rfl rfl rfl
  ⟨(h.1 (by decide)).1, (h.1 (by decide)).2, h.2.2.1⟩

/-- C6: a message whose cluster id is not On/Off, or whose attribute id is not the On/Off
attribute, or whose declared type is not boolean, leaves the object (so the state)
unchanged, whatever value it carries; the trace holds diagnostics only: no observer
call, no attribute write, no stack call. -/
theorem zbAttributeSet_foreign_message (K : StackConstants) (b : ZigbeeButton)
    (m : esp_zb_zcl_set_attr_value_message_t)
    (h : m.info.cluster ≠ K.ESP_ZB_ZCL_CLUSTER_ID_ON_OFF
      ∨ m.attr.id ≠ K.ESP_ZB_ZCL_ATTR_ON_OFF_ON_OFF_ID
      ∨ m.attr.data.type ≠ K.ESP_ZB_ZCL_ATTR_TYPE_BOOL) :
    (b.zbAttributeSet K m).1 = b
      ∧ (b.zbAttributeSet K m).1.getButtonState = b.getButtonState
      ∧ notifications (b.zbAttributeSet K m).2 = []
      ∧ attrWrites (b.zbAttributeSet K m).2 = []
      ∧ stackCalls (b.zbAttributeSet K m).2 = [] := by
  rw [zbAttributeSet_reject K b m h]
  exact ⟨rfl, rfl, rfl, rfl, rfl⟩

/-- Instance of C6: endpoint 10 receives a Level Control message carrying true. -/
theorem zbAttributeSet_foreign_message_witness :
    (button10.zbAttributeSet zclConstants levelMessage).1 = button10
      ∧ notifications (button10.zbAttributeSet zclConstants levelMessage).2 = [] :=
  have h := zbAttributeSet_foreign_message zclConstants button10 levelMessage
    (Or.inl (by decide))
  ⟨h.1, h.2.2.1⟩

/-! ## Stack interactions of a local change -/

/-- C7: the whole trace of `setButtonState v` on an endpoint numbered `e = b._endpoint` is
the observer call (when one is registered), the diagnostic, then lock acquisition with
`portMAX_DELAY`, one set-attribute call for endpoint `e`, On/Off cluster, server role,
On/Off attribute, value `v`, and lock release.  These three are all its stack calls: one
store write, no report command.  On the constructed endpoint 10 with `v = true` the
single store write is for endpoint 10 and value true. -/
theorem setButtonState_stack_interactions (K : StackConstants) (b : ZigbeeButton)
    (v : Bool) :
    (b.setButtonState K v).2 =
        (if b._on_button_change ≠ 0 then [Event.callback b._on_button_change v] else []) ++
          [ Event.log_v (LogLine.updating_state v),
            Event.esp_zb_lock_acquire K.portMAX_DELAY,
            Event.esp_zb_zcl_set_attribute_val b._endpoint K.ESP_ZB_ZCL_CLUSTER_ID_ON_OFF
              K.ESP_ZB_ZCL_CLUSTER_SERVER_ROLE K.ESP_ZB_ZCL_ATTR_ON_OFF_ON_OFF_ID v false,
            Event.esp_zb_lock_release ]
      ∧ stackCalls (b.setButtonState K v).2 =
          [ Event.esp_zb_lock_acquire K.portMAX_DELAY,
            Event.esp_zb_zcl_set_attribute_val b._endpoint K.ESP_ZB_ZCL_CLUSTER_ID_ON_OFF
              K.ESP_ZB_ZCL_CLUSTER_SERVER_ROLE K.ESP_ZB_ZCL_ATTR_ON_OFF_ON_OFF_ID v false,
            Event.esp_zb_lock_release ]
      ∧ attrWrites (b.setButtonState K v).2 =
          [ Event.esp_zb_zcl_set_attribute_val b._endpoint K.ESP_ZB_ZCL_CLUSTER_ID_ON_OFF
              K.ESP_ZB_ZCL_CLUSTER_SERVER_ROLE K.ESP_ZB_ZCL_ATTR_ON_OFF_ON_OFF_ID v false ]
      ∧ reportCommands (b.setButtonState K v).2 = []
      ∧ ∀ storage callback : Nat,
          attrWrites
            (((ZigbeeButton.ctor K 10 storage).onButtonChange callback).setButtonState K true).2
          = [ Event.esp_zb_zcl_set_attribute_val 10 K.ESP_ZB_ZCL_CLUSTER_ID_ON_OFF
              K.ESP_ZB_ZCL_CLUSTER_SERVER_ROLE K.ESP_ZB_ZCL_ATTR_ON_OFF_ON_OFF_ID true false ] := by
  have hw : ∀ (c : ZigbeeButton) (w : Bool), attrWrites (c.setButtonState K w).2 =
      [ Event.esp_zb_zcl_set_attribute_val c._endpoint K.ESP_ZB_ZCL_CLUSTER_ID_ON_OFF
          K.ESP_ZB_ZCL_CLUSTER_SERVER_ROLE K.ESP_ZB_ZCL_ATTR_ON_OFF_ON_OFF_ID w false ] := by
    intro c w
    rw [setButtonState_snd]
    by_cases h : c._on_button_change = 0 <;> simp [h, attrWrites]
  refine ⟨setButtonState_snd K b v, ?_, hw b v, ?_, ?_⟩
  · rw [setButtonState_snd]
    by_cases h : b._on_button_change = 0 <;> simp [h, stackCalls]
  · rw [setButtonState_snd]
    by_cases h : b._on_button_change = 0 <;> simp [h, reportCommands]
  · intro storage callback
    rw [hw]
    rfl

/-! ## The mirror invariant -/

theorem storeAfter_append (K : StackConstants) (e : Nat) (stored : Option Bool)
    (t u : List Event) :
    storeAfter K e stored (t ++ u) = storeAfter K e (storeAfter K e stored t) u := by
  unfold storeAfter
  rw [List.foldl_append]

theorem storeAfter_buttonChanged (K : StackConstants) (e : Nat) (stored : Option Bool)
    (b : ZigbeeButton) : storeAfter K e stored b.buttonChanged.2 = stored := by
  rw [buttonChanged_snd]
  split <;> rfl

theorem storeAfter_setButtonState (K : StackConstants) (stored : Option Bool)
    (b : ZigbeeButton) (v : Bool) :
    storeAfter K b._endpoint stored (b.setButtonState K v).2 = some v := by
  rw [setButtonState_snd, storeAfter_append]
  simp [storeAfter, storeAfterEvent]

theorem storeAfter_zbAttributeSet (K : StackConstants) (e : Nat) (stored : Option Bool)
    (b : ZigbeeButton) (m : esp_zb_zcl_set_attr_value_message_t) :
    storeAfter K e stored (b.zbAttributeSet K m).2 = stored := by
  unfold ZigbeeButton.zbAttributeSet
  split
  · split
    · split
      · rw [storeAfter_append, storeAfter_buttonChanged]
        rfl
      · rfl
    · rfl
  · rfl

theorem initialOnOff_clusters_create (K : StackConstants) (cfg : zigbee_button_cfg_t) :
    initialOnOff K (zigbee_button_clusters_create K cfg) = some cfg.on_off_cfg.on_off := by
  simp [initialOnOff, zigbee_button_clusters_create, esp_zb_zcl_cluster_list_create,
    esp_zb_cluster_list_add_basic_cluster, esp_zb_cluster_list_add_identify_cluster,
    esp_zb_cluster_list_add_on_off_cluster, esp_zb_basic_cluster_create,
    esp_zb_identify_cluster_create, esp_zb_on_off_cluster_create, List.findSome?]

theorem mirror_init (K : StackConstants) (endpoint storage : Nat) :
    (System.init K endpoint storage).Mirror := by
  unfold System.Mirror System.init
  simp only [ZigbeeButton.ctor, initialOnOff_clusters_create]
  rfl

theorem mirror_step (K : StackConstants) (s : System) (op : Op) (h : s.Mirror) :
    (s.step K op).Mirror := by
  unfold System.Mirror at h ⊢
  cases op with
  | setButtonState v =>
    simp only [System.step, System.absorb, storeAfter_setButtonState, setButtonState_fst]
  | toggleButton =>
    simp only [System.step, System.absorb, toggleButton_eq, storeAfter_setButtonState,
      setButtonState_fst]
  | restoreButton =>
    simp only [System.step, System.absorb, ZigbeeButton.restoreButton,
      storeAfter_buttonChanged, buttonChanged_fst]
    exact h
  | onButtonChange cb =>
    simp only [System.step, ZigbeeButton.onButtonChange]
    exact h
  | reportButton =>
    simp only [System.step, System.absorb, ZigbeeButton.reportButton]
    exact h
  | remoteUpdate m =>
    simp only [System.step, System.dispatch]
    split
    · simp only [System.absorb, storeAfter_zbAttributeSet]
      by_cases hv : m.info.cluster = K.ESP_ZB_ZCL_CLUSTER_ID_ON_OFF
          ∧ m.attr.id = K.ESP_ZB_ZCL_ATTR_ON_OFF_ON_OFF_ID
          ∧ m.attr.data.type = K.ESP_ZB_ZCL_ATTR_TYPE_BOOL
      · rw [zbAttributeSet_accept K s.button m hv.1 hv.2.1 hv.2.2]
        unfold stackRemoteWrite
        rw [if_pos hv]
        by_cases hw : s.button._current_state = m.attr.data.value <;> simp [hw]
      · have hr : m.info.cluster ≠ K.ESP_ZB_ZCL_CLUSTER_ID_ON_OFF
            ∨ m.attr.id ≠ K.ESP_ZB_ZCL_ATTR_ON_OFF_ON_OFF_ID
            ∨ m.attr.data.type ≠ K.ESP_ZB_ZCL_ATTR_TYPE_BOOL := by
          by_contra hn
          push_neg at hn
          exact hv hn
        rw [zbAttributeSet_reject K s.button m hr]
        unfold stackRemoteWrite
        rw [if_neg hv]
        exact h
    · exact h

theorem mirror_run (K : StackConstants) (ops : List Op) :
    ∀ s : System, s.Mirror → (s.run K ops).Mirror := by
  induction ops with
  | nil => intro s h; exact h
  | cons op ops ih =>
    intro s h
    exact ih (s.step K op) (mirror_step K s op h)

/-- C8: in every state reached from construction (any endpoint number, any prior content of
the callback member) by any sequence of completed `setButtonState`, `toggleButton`,
`restoreButton`, `onButtonChange`, `reportButton` calls and stack-delivered attribute
messages, the cached state read by `getButtonState` equals the content of the store cell
of the endpoint's On/Off attribute. -/
theorem mirror_invariant (K : StackConstants) (endpoint storage : Nat) (ops : List Op) :
    ((System.init K endpoint storage).run K ops).on_off_attr
      = some ((System.init K endpoint storage).run K ops).button.getButtonState :=
  mirror_run K ops (System.init K endpoint storage) (mirror_init K endpoint storage)

/-! ## Cluster assembly -/

/-- C9: for every configuration record the cluster list built by
`zigbee_button_clusters_create` is exactly Basic, Identify, On/Off, each with the server
role; it holds no Groups cluster and no Scenes cluster, in any role. -/
theorem zigbee_button_clusters_create_has_three (K : StackConstants)
    (cfg : zigbee_button_cfg_t) :
    zigbee_button_clusters_create K cfg =
        [ { cluster := ClusterKind.basic
            attr_list := esp_zb_attribute_list_t.basic cfg.basic_cfg
            role_mask := K.ESP_ZB_ZCL_CLUSTER_SERVER_ROLE },
          { cluster := ClusterKind.identify
            attr_list := esp_zb_attribute_list_t.identify cfg.identify_cfg
            role_mask := K.ESP_ZB_ZCL_CLUSTER_SERVER_ROLE },
          { cluster := ClusterKind.on_off
            attr_list := esp_zb_attribute_list_t.on_off cfg.on_off_cfg
            role_mask := K.ESP_ZB_ZCL_CLUSTER_SERVER_ROLE } ]
      ∧ hasCluster (zigbee_button_clusters_create K cfg) ClusterKind.basic
          K.ESP_ZB_ZCL_CLUSTER_SERVER_ROLE = true
      ∧ hasCluster (zigbee_button_clusters_create K cfg) ClusterKind.identify
          K.ESP_ZB_ZCL_CLUSTER_SERVER_ROLE = true
      ∧ hasCluster (zigbee_button_clusters_create K cfg) ClusterKind.on_off
          K.ESP_ZB_ZCL_CLUSTER_SERVER_ROLE = true
      ∧ (∀ role : Nat,
          hasCluster (zigbee_button_clusters_create K cfg) ClusterKind.groups role = false)
      ∧ (∀ role : Nat,
          hasCluster (zigbee_button_clusters_create K cfg) ClusterKind.scenes role = false) := by
  refine ⟨rfl, ?_, ?_, ?_, ?_, ?_⟩ <;>
    simp [hasCluster, zigbee_button_clusters_create, esp_zb_zcl_cluster_list_create,
      esp_zb_cluster_list_add_basic_cluster, esp_zb_cluster_list_add_identify_cluster,
      esp_zb_cluster_list_add_on_off_cluster]

/-! ## Notification without an observer -/

/-- With a null callback pointer every notification is empty and the other effects of the
operations are as usual: `setButtonState` and `toggleButton` set the state and make their
store write, `restoreButton` does nothing, an accepted remote update sets the state. -/
theorem notification_noop_when_null (K : StackConstants) (b : ZigbeeButton)
    (h : b._on_button_change = 0) (v : Bool)
    (m : esp_zb_zcl_set_attr_value_message_t) :
    notifications (b.setButtonState K v).2 = []
      ∧ (b.setButtonState K v).1.getButtonState = v
      ∧ notifications (b.toggleButton K).2 = []
      ∧ (b.toggleButton K).1.getButtonState = !b.getButtonState
      ∧ b.restoreButton = (b, [])
      ∧ notifications (b.zbAttributeSet K m).2 = [] := by
  refine ⟨?_, ?_, ?_, ?_, ?_, ?_⟩
  · simp [setButtonState_snd, h, notifications]
  · rw [setButtonState_fst]; rfl
  · simp [toggleButton_eq, setButtonState_snd, h, notifications]
  · rw [toggleButton_eq, setButtonState_fst]; rfl
  · exact Prod.ext (buttonChanged_fst b) (buttonChanged_snd_unset b h)
  · unfold ZigbeeButton.zbAttributeSet
    split
    · split
      · split
        · simp [buttonChanged_snd, h, notifications]
        · rfl
      · rfl
    · rfl

/-- C10: endpoint 10 is constructed in storage whose bytes under `_on_button_change` read
`0x3ffb2a10`, and `onButtonChange` is never called.  Each change notification then calls
through that address: from `setButtonState true`, from `toggleButton`, from
`restoreButton`, and from an accepted remote update. -/
theorem fresh_endpoint_calls_through_unset_pointer :
    notifications
        ((ZigbeeButton.ctor zclConstants 10 0x3ffb2a10).setButtonState zclConstants true).2
      = [(0x3ffb2a10, true)]
    ∧ notifications ((ZigbeeButton.ctor zclConstants 10 0x3ffb2a10).toggleButton zclConstants).2
      = [(0x3ffb2a10, true)]
    ∧ notifications (ZigbeeButton.ctor zclConstants 10 0x3ffb2a10).restoreButton.2
      = [(0x3ffb2a10, false)]
    ∧ notifications
        ((ZigbeeButton.ctor zclConstants 10 0x3ffb2a10).zbAttributeSet zclConstants
          (onOffMessage zclConstants 10 true)).2
      = [(0x3ffb2a10, true)] := by
  refine ⟨?_, ?_, ?_, ?_⟩ <;> decide
